import Mathlib

/-!
# Verification of `chaincode_study.go`

A shallow embedding of the chaincode in `src/chaincode/chaincode_study.go`:
the lifecycle callbacks `Init` and `Invoke`, the handlers `invokeCC` and
`queryCC`, and the API catalogue `ApiList`.

The chaincode talks to its host only through the stub it is handed.  The stub
is a parameter of every definition here: a record of host behaviours over an
arbitrary host state `σ`.  A run threads a `World σ` (host state, the list of
stub calls issued so far, what was written to standard output and the shim's
logging level) and either ends normally or with a Go panic.
-/

set_option linter.unusedVariables false

namespace Chaincode

/-! ## Go values -/

/-- A Go `string`: an immutable sequence of bytes, not necessarily valid UTF-8. -/
abbrev GoString := List UInt8

/-- The bytes of a Go string literal: the UTF-8 encoding of its text. -/
def goString (s : String) : GoString := s.data.flatMap String.utf8EncodeChar

/-- A Go `[]byte`: `none` is the nil slice, `some bs` a non-nil slice holding `bs`. -/
abbrev ByteSlice := Option (List UInt8)

/-- The elements of a byte slice; the nil slice has none. -/
def ByteSlice.elems : ByteSlice → List UInt8
  | none => []
  | some bs => bs

/-- Go's `len(b)`. -/
def ByteSlice.len (b : ByteSlice) : Nat := (ByteSlice.elems b).length

/-- The conversion `[]byte(s)`: a fresh non-nil slice with the bytes of `s`. -/
def ByteSlice.ofString (s : GoString) : ByteSlice := some s

/-- Go's `append(s, xs...)`: appending nothing to the nil slice leaves it nil. -/
def ByteSlice.append : ByteSlice → ByteSlice → ByteSlice
  | none, xs => match ByteSlice.elems xs with
    | [] => none
    | x :: rest => some (x :: rest)
  | some bs, xs => some (bs ++ ByteSlice.elems xs)

/-- A Go `error` value: `none` is nil, `some msg` an error with its message. -/
abbrev GoError := Option GoString

/-! ## The types of the `shim` and `peer` packages -/

/-- Modelled from the spec: `pb.Response` is declared in the imported `peer`
package, not in this repository.  Section 3 of the spec gives its shape:
`{ statusOk: bool, payload: byte sequence or absent, message: string on failure }`. -/
structure Response where
  statusOk : Bool
  payload : ByteSlice
  message : GoString
  deriving DecidableEq, Repr

/-- Modelled from the spec: `shim.Success` belongs to the imported `shim`
package.  Section 6: a response crosses the boundary as
`success(payload bytes-or-empty)`. -/
def shim.Success (payload : ByteSlice) : Response :=
  { statusOk := true, payload := payload, message := [] }

/-- Modelled from the spec: `shim.Error` belongs to the imported `shim`
package.  Section 6: `failure(message string)`. -/
def shim.Error (msg : GoString) : Response :=
  { statusOk := false, payload := none, message := msg }

/-- Modelled from the spec: one record of a range or rich query, a key/value pair. -/
structure KV where
  Key : GoString
  Value : ByteSlice
  deriving DecidableEq, Repr

/-- Modelled from the spec: one record of a key's history, a value together
with the metadata of the transaction that wrote it. -/
structure KeyModification where
  Value : ByteSlice
  TxId : GoString
  deriving DecidableEq, Repr

/-- Modelled from the spec: what a paginated query returns next to its
iterator, the continuation token. -/
structure QueryResponseMetadata where
  Bookmark : GoString
  deriving DecidableEq, Repr

/-- The logging severities, in the order of the table in the comment at
lines 142-147 of the source: CRITICAL 0, ERROR 1, WARNING 2, NOTICE 3, INFO 4,
DEBUG 5. -/
inductive LoggingLevel
  | CRITICAL | ERROR | WARNING | NOTICE | INFO | DEBUG
  deriving DecidableEq, Repr

/-- The number the source's comment gives each severity. -/
def LoggingLevel.toNat : LoggingLevel → Nat
  | .CRITICAL => 0 | .ERROR => 1 | .WARNING => 2
  | .NOTICE => 3 | .INFO => 4 | .DEBUG => 5

/-! ## Runs: the world, panics, standard output -/

/-- One call on the stub, with the arguments it was given. -/
inductive StubCall
  | GetFunctionAndParameters
  | PutState (key : GoString) (value : ByteSlice)
  | GetState (key : GoString)
  | DelState (key : GoString)
  | PutPrivateData (collection key : GoString) (value : ByteSlice)
  | GetPrivateData (collection key : GoString)
  | DelPrivateData (collection key : GoString)
  | GetStateByRange (startKey endKey : GoString)
  | GetQueryResult (query : GoString)
  | GetStateByRangeWithPagination (startKey endKey : GoString) (pageSize : Int)
      (bookmark : GoString)
  | GetQueryResultWithPagination (query : GoString) (pageSize : Int) (bookmark : GoString)
  | GetHistoryForKey (key : GoString)
  | SetEvent (name : GoString) (payload : ByteSlice)
  | InvokeChaincode (chaincodeName : GoString) (args : List ByteSlice) (channel : GoString)
  deriving DecidableEq, Repr

/-- A value handed to `fmt.Printf` or `fmt.Println`. -/
inductive GoValue
  | string (s : GoString)
  | strings (ss : List GoString)
  | bytes (b : ByteSlice)
  | error (e : GoError)
  | kv (r : Option KV)
  | keyModification (r : Option KeyModification)
  | metadata (m : Option QueryResponseMetadata)
  deriving DecidableEq, Repr

/-- One write to standard output: the call and its operands (the text that
`fmt` renders from them is not modelled). -/
inductive PrintCall
  | Printf (format : GoString) (operands : List GoValue)
  | Println (operands : List GoValue)
  deriving DecidableEq, Repr

/-- Everything a run can read or change. -/
structure World (σ : Type) where
  host : σ
  calls : List StubCall
  stdout : List PrintCall
  loggingLevel : LoggingLevel

/-- The ways a run can panic. -/
inductive GoPanic
  /-- A method call on a nil interface value. -/
  | nilPointerDereference
  deriving DecidableEq, Repr

/-- A Go computation over a host with state `σ`: it ends with a panic, or with
a result and a new world. -/
abbrev Go (σ : Type) := StateT (World σ) (Except GoPanic)

/-- A call into the host: run the host's transition and record the call. -/
def hostCall {σ α : Type} (c : StubCall) (f : σ → α × σ) : Go σ α :=
  fun w => .ok ((f w.host).1, { w with host := (f w.host).2, calls := w.calls ++ [c] })

/-- A call on an object the host returned earlier (an iterator): run the
host's transition. -/
def objectCall {σ α : Type} (f : σ → α × σ) : Go σ α :=
  fun w => .ok ((f w.host).1, { w with host := (f w.host).2 })

/-- The call `fmt.Printf(format, operands...)`. -/
def fmt.Printf {σ : Type} (format : GoString) (operands : List GoValue) : Go σ Unit :=
  fun w => .ok ((), { w with stdout := w.stdout ++ [.Printf format operands] })

/-- The call `fmt.Println(operands...)`. -/
def fmt.Println {σ : Type} (operands : List GoValue) : Go σ Unit :=
  fun w => .ok ((), { w with stdout := w.stdout ++ [.Println operands] })

/-- Modelled from the spec: `shim.LogLevel` belongs to the imported `shim`
package.  The names and their order are those of section 6 of the spec and of
the table in the source's comment (lines 142-147); the source only ever passes
`"DEBUG"`.  A name outside the table is answered with an error. -/
def shim.LogLevel (levelString : GoString) : LoggingLevel × GoError :=
  if levelString = goString "CRITICAL" then (.CRITICAL, none)
  else if levelString = goString "ERROR" then (.ERROR, none)
  else if levelString = goString "WARNING" then (.WARNING, none)
  else if levelString = goString "NOTICE" then (.NOTICE, none)
  else if levelString = goString "INFO" then (.INFO, none)
  else if levelString = goString "DEBUG" then (.DEBUG, none)
  else (.ERROR, some (goString "logger: invalid log level"))

/-- The call `shim.SetLoggingLevel(level)`. -/
def shim.SetLoggingLevel {σ : Type} (level : LoggingLevel) : Go σ Unit :=
  fun w => .ok ((), { w with loggingLevel := level })

/-! ## The stub -/

/-- The implementation behind a non-nil `StateQueryIteratorInterface`. -/
structure StateQueryIterator (σ : Type) where
  hasNext : σ → Bool × σ
  next : σ → (Option KV × GoError) × σ

/-- A value of the interface type: nil, or an implementation. -/
abbrev StateQueryIteratorInterface (σ : Type) := Option (StateQueryIterator σ)

/-- The implementation behind a non-nil `HistoryQueryIteratorInterface`. -/
structure HistoryQueryIterator (σ : Type) where
  hasNext : σ → Bool × σ
  next : σ → (Option KeyModification × GoError) × σ

/-- A value of the interface type: nil, or an implementation. -/
abbrev HistoryQueryIteratorInterface (σ : Type) := Option (HistoryQueryIterator σ)

/-- The host behind `shim.ChaincodeStubInterface`, restricted to the methods
the source calls: each is a transition of the host state that also yields the
method's results. -/
structure ChaincodeStubInterface (σ : Type) where
  getFunctionAndParameters : σ → (GoString × List GoString) × σ
  putState : GoString → ByteSlice → σ → GoError × σ
  getState : GoString → σ → (ByteSlice × GoError) × σ
  delState : GoString → σ → GoError × σ
  putPrivateData : GoString → GoString → ByteSlice → σ → GoError × σ
  getPrivateData : GoString → GoString → σ → (ByteSlice × GoError) × σ
  delPrivateData : GoString → GoString → σ → GoError × σ
  getStateByRange : GoString → GoString → σ → (StateQueryIteratorInterface σ × GoError) × σ
  getQueryResult : GoString → σ → (StateQueryIteratorInterface σ × GoError) × σ
  getStateByRangeWithPagination : GoString → GoString → Int → GoString → σ →
    (StateQueryIteratorInterface σ × Option QueryResponseMetadata × GoError) × σ
  getQueryResultWithPagination : GoString → Int → GoString → σ →
    (StateQueryIteratorInterface σ × Option QueryResponseMetadata × GoError) × σ
  getHistoryForKey : GoString → σ → (HistoryQueryIteratorInterface σ × GoError) × σ
  setEvent : GoString → ByteSlice → σ → GoError × σ
  invokeChaincode : GoString → List ByteSlice → GoString → σ → Response × σ

section StubMethods

variable {σ : Type} (stub : ChaincodeStubInterface σ)

def ChaincodeStubInterface.GetFunctionAndParameters : Go σ (GoString × List GoString) :=
  hostCall .GetFunctionAndParameters stub.getFunctionAndParameters

def ChaincodeStubInterface.PutState (key : GoString) (value : ByteSlice) : Go σ GoError :=
  hostCall (.PutState key value) (stub.putState key value)

def ChaincodeStubInterface.GetState (key : GoString) : Go σ (ByteSlice × GoError) :=
  hostCall (.GetState key) (stub.getState key)

def ChaincodeStubInterface.DelState (key : GoString) : Go σ GoError :=
  hostCall (.DelState key) (stub.delState key)

def ChaincodeStubInterface.PutPrivateData (collection key : GoString) (value : ByteSlice) :
    Go σ GoError :=
  hostCall (.PutPrivateData collection key value) (stub.putPrivateData collection key value)

def ChaincodeStubInterface.GetPrivateData (collection key : GoString) :
    Go σ (ByteSlice × GoError) :=
  hostCall (.GetPrivateData collection key) (stub.getPrivateData collection key)

def ChaincodeStubInterface.DelPrivateData (collection key : GoString) : Go σ GoError :=
  hostCall (.DelPrivateData collection key) (stub.delPrivateData collection key)

def ChaincodeStubInterface.GetStateByRange (startKey endKey : GoString) :
    Go σ (StateQueryIteratorInterface σ × GoError) :=
  hostCall (.GetStateByRange startKey endKey) (stub.getStateByRange startKey endKey)

def ChaincodeStubInterface.GetQueryResult (query : GoString) :
    Go σ (StateQueryIteratorInterface σ × GoError) :=
  hostCall (.GetQueryResult query) (stub.getQueryResult query)

def ChaincodeStubInterface.GetStateByRangeWithPagination (startKey endKey : GoString)
    (pageSize : Int) (bookmark : GoString) :
    Go σ (StateQueryIteratorInterface σ × Option QueryResponseMetadata × GoError) :=
  hostCall (.GetStateByRangeWithPagination startKey endKey pageSize bookmark)
    (stub.getStateByRangeWithPagination startKey endKey pageSize bookmark)

def ChaincodeStubInterface.GetQueryResultWithPagination (query : GoString)
    (pageSize : Int) (bookmark : GoString) :
    Go σ (StateQueryIteratorInterface σ × Option QueryResponseMetadata × GoError) :=
  hostCall (.GetQueryResultWithPagination query pageSize bookmark)
    (stub.getQueryResultWithPagination query pageSize bookmark)

def ChaincodeStubInterface.GetHistoryForKey (key : GoString) :
    Go σ (HistoryQueryIteratorInterface σ × GoError) :=
  hostCall (.GetHistoryForKey key) (stub.getHistoryForKey key)

def ChaincodeStubInterface.SetEvent (name : GoString) (payload : ByteSlice) : Go σ GoError :=
  hostCall (.SetEvent name payload) (stub.setEvent name payload)

def ChaincodeStubInterface.InvokeChaincode (chaincodeName : GoString)
    (args : List ByteSlice) (channel : GoString) : Go σ Response :=
  hostCall (.InvokeChaincode chaincodeName args channel)
    (stub.invokeChaincode chaincodeName args channel)

end StubMethods

/-- The call `iterator.HasNext()`: a nil pointer dereference on a nil iterator. -/
def StateQueryIteratorInterface.HasNext {σ : Type} :
    StateQueryIteratorInterface σ → Go σ Bool
  | none => throw .nilPointerDereference
  | some it => objectCall it.hasNext

/-- The call `iterator.Next()`. -/
def StateQueryIteratorInterface.Next {σ : Type} :
    StateQueryIteratorInterface σ → Go σ (Option KV × GoError)
  | none => throw .nilPointerDereference
  | some it => objectCall it.next

/-- The call `hisIterator.HasNext()`. -/
def HistoryQueryIteratorInterface.HasNext {σ : Type} :
    HistoryQueryIteratorInterface σ → Go σ Bool
  | none => throw .nilPointerDereference
  | some it => objectCall it.hasNext

/-- The call `hisIterator.Next()`. -/
def HistoryQueryIteratorInterface.Next {σ : Type} :
    HistoryQueryIteratorInterface σ → Go σ (Option KeyModification × GoError)
  | none => throw .nilPointerDereference
  | some it => objectCall it.next

/-! ## The chaincode -/

/-- The receiver type `ChaincodeStudy`, an empty struct. -/
structure ChaincodeStudy where
  deriving DecidableEq, Repr

variable {σ : Type}

/-- `Init`, lines 24-40. -/
def ChaincodeStudy.Init (t : ChaincodeStudy) (stub : ChaincodeStubInterface σ) :
    Go σ Response := do
  let (funcName, args) ← stub.GetFunctionAndParameters
  fmt.Printf (goString "funcname: %v ,args: %v") [.string funcName, .strings args]
  return shim.Success none

/-- `invokeCC`, lines 62-64. -/
def ChaincodeStudy.invokeCC (t : ChaincodeStudy) (stub : ChaincodeStubInterface σ)
    (args : List GoString) : Go σ Response := do
  return shim.Success none

/-- `queryCC`, lines 66-70. -/
def ChaincodeStudy.queryCC (t : ChaincodeStudy) (stub : ChaincodeStubInterface σ)
    (args : List GoString) : Go σ Response := do
  let result := ByteSlice.ofString (goString "value")
  return shim.Success result

/-- `Invoke`, lines 49-60. -/
def ChaincodeStudy.Invoke (t : ChaincodeStudy) (stub : ChaincodeStubInterface σ) :
    Go σ Response := do
  let (funcName, args) ← stub.GetFunctionAndParameters
  if funcName = goString "invoke" then
    t.invokeCC stub args
  else if funcName = goString "query" then
    t.queryCC stub args
  else
    return shim.Success none

/-- `ApiList`, lines 73-151.  A variable that the source assigns again is
bound again here; the query text of line 115 is what `fmt.Sprintf` renders
from its format and the operand 20. -/
def ChaincodeStudy.ApiList (t : ChaincodeStudy) (stub : ChaincodeStubInterface σ) :
    Go σ Unit := do
  let (funcName, args) ← stub.GetFunctionAndParameters
  fmt.Println [.string funcName, .strings args]
  let err ← stub.PutState (goString "key") (ByteSlice.ofString (goString "value"))
  fmt.Println [.error err]
  let (res, err) ← stub.GetState (goString "key")
  fmt.Println [.bytes res, .error err]
  let err ← stub.DelState (goString "key")
  let err ← stub.PutPrivateData (goString "collecionPrivate") (goString "key")
    (ByteSlice.ofString (goString "value"))
  let (res, err) ← stub.GetPrivateData (goString "collecionPrivate") (goString "key")
  let err ← stub.DelPrivateData (goString "collecionPrivate") (goString "key")
  let (iterator, err) ← stub.GetStateByRange (goString "startKey") (goString "endKey")
  if ← StateQueryIteratorInterface.HasNext iterator then
    let (kv, e) ← StateQueryIteratorInterface.Next iterator
    fmt.Println [.kv kv, .error e]
  let (iterator, err) ←
    stub.GetQueryResult (goString "\x7b\"selector\":\x7b\"age\":\"20\"\x7d\x7d")
  let (iterator, bookmark, err) ←
    stub.GetStateByRangeWithPagination (goString "startKey") (goString "endKey") 10 (goString "")
  fmt.Println [.metadata bookmark]
  let (iterator, bookmark, err) ←
    stub.GetQueryResultWithPagination (goString "sql") 10 (goString "")
  let (hisIterator, err) ← stub.GetHistoryForKey (goString "key")
  if ← HistoryQueryIteratorInterface.HasNext hisIterator then
    let (km, e) ← HistoryQueryIteratorInterface.Next hisIterator
    fmt.Println [.keyModification km, .error e]
  let as : ByteSlice :=
    args.foldl (fun as a => ByteSlice.append as (ByteSlice.ofString a)) none
  let _ ← stub.SetEvent (goString "InitEvent") as
  let _ ← stub.InvokeChaincode (goString "合约名")
    [ByteSlice.ofString (goString "invoke"), ByteSlice.ofString (goString "transfer"),
      ByteSlice.ofString (goString "a")]
    (goString "通道")
  let (logLevel, _) := shim.LogLevel (goString "DEBUG")
  shim.SetLoggingLevel logLevel

/-! ## A host with an explicit ledger -/

/-- The ledger of a host: the public key/value state, the private
collections and the event pending for the current transaction. -/
structure Ledger where
  state : List (GoString × ByteSlice)
  privateData : List ((GoString × GoString) × ByteSlice)
  event : Option (GoString × ByteSlice)
  deriving DecidableEq, Repr

/-- The ledger with nothing in it. -/
def Ledger.empty : Ledger := { state := [], privateData := [], event := none }

/-- An iterator with no records. -/
def emptyIterator : StateQueryIterator Ledger :=
  { hasNext := fun l => (false, l), next := fun l => ((none, some (goString "no records")), l) }

/-- A history iterator that always has the same one record to offer. -/
def oneRecordHistory : HistoryQueryIterator Ledger :=
  { hasNext := fun l => (true, l)
    next := fun l => ((some { Value := some [1], TxId := goString "tx0" }, none), l) }

/-- A stub over a ledger, for one invocation with the given function name and
arguments.  Writes and deletes update the ledger; queries answer with the
canned iterators `range` and `history`. -/
def ledgerStub (function : GoString) (args : List GoString)
    (range : StateQueryIteratorInterface Ledger × GoError)
    (history : HistoryQueryIteratorInterface Ledger × GoError) :
    ChaincodeStubInterface Ledger where
  getFunctionAndParameters := fun l => ((function, args), l)
  putState := fun k v l => (none, { l with state := (k, v) :: l.state.filter (·.1 ≠ k) })
  getState := fun k l => (((l.state.lookup k).getD none, none), l)
  delState := fun k l => (none, { l with state := l.state.filter (·.1 ≠ k) })
  putPrivateData := fun c k v l =>
    (none, { l with privateData := ((c, k), v) :: l.privateData.filter (·.1 ≠ (c, k)) })
  getPrivateData := fun c k l => (((l.privateData.lookup (c, k)).getD none, none), l)
  delPrivateData := fun c k l =>
    (none, { l with privateData := l.privateData.filter (·.1 ≠ (c, k)) })
  getStateByRange := fun _ _ l => (range, l)
  getQueryResult := fun _ l => (range, l)
  getStateByRangeWithPagination := fun _ _ _ b l => ((range.1, some { Bookmark := b }, range.2), l)
  getQueryResultWithPagination := fun _ _ b l => ((range.1, some { Bookmark := b }, range.2), l)
  getHistoryForKey := fun _ l => (history, l)
  setEvent := fun name payload l => (none, { l with event := some (name, payload) })
  invokeChaincode := fun _ _ _ l => (shim.Success none, l)

/-- The world at the start of a run on the host state `h`. -/
def World.start (h : σ) : World σ :=
  { host := h, calls := [], stdout := [], loggingLevel := .INFO }

/-- The response of a run, when it ended normally. -/
def response? {α : Type} : Except GoPanic (α × World σ) → Option α
  | .ok (a, _) => some a
  | .error _ => none

/-- The world a run ended in, when it ended normally. -/
def world? {α : Type} : Except GoPanic (α × World σ) → Option (World σ)
  | .ok (_, w) => some w
  | .error _ => none


/-- The world after the one call of `GetFunctionAndParameters`. -/
def World.afterGetFunctionAndParameters (stub : ChaincodeStubInterface σ) (w : World σ) :
    World σ :=
  { w with host := (stub.getFunctionAndParameters w.host).2,
           calls := w.calls ++ [.GetFunctionAndParameters] }

/-- Successive calls of `Init` on a ledger, one per invocation, each with a
stub of its own; the ledger they leave, if none of them panics. -/
def runInits (t : ChaincodeStudy) (range : StateQueryIteratorInterface Ledger × GoError)
    (history : HistoryQueryIteratorInterface Ledger × GoError) :
    List (GoString × List GoString) → Ledger → Option Ledger
  | [], l => some l
  | (function, args) :: rest, l =>
    match t.Init (ledgerStub function args range history) (World.start l) with
    | .ok (_, w) => runInits t range history rest w.host
    | .error _ => none

/-- The `SetEvent` calls among a list of stub calls, in order. -/
def setEvents : List StubCall → List (GoString × ByteSlice)
  | [] => []
  | .SetEvent name payload :: rest => (name, payload) :: setEvents rest
  | _ :: rest => setEvents rest

/-- The slice that the loop of lines 131-134 builds from `args`. -/
def eventPayload (args : List GoString) : ByteSlice :=
  args.foldl (fun as a => ByteSlice.append as (ByteSlice.ofString a)) none

/-- A computation that, whenever it ends normally, has issued exactly the
stub calls `cs`, in this order. -/
def Emits {α : Type} (m : Go σ α) (cs : List StubCall) : Prop :=
  ∀ w a w', m w = .ok (a, w') → w'.calls = w.calls ++ cs

/-- A computation that ends normally from every world, with a result that
satisfies `P`. -/
def Returns {α : Type} (m : Go σ α) (P : α → Prop) : Prop :=
  ∀ w, ∃ a w', m w = .ok (a, w') ∧ P a

/-! ## The dispatcher of the spec's design notes -/

/-- A handler of the dispatcher. -/
abbrev Handler (σ : Type) :=
  ChaincodeStudy → ChaincodeStubInterface σ → List GoString → Go σ Response

/-- The dispatch table of the spec's design notes: a mapping from function
name to handler, with the two entries `"invoke"` and `"query"`. -/
def dispatchTable : List (GoString × Handler σ) :=
  [(goString "invoke", ChaincodeStudy.invokeCC), (goString "query", ChaincodeStudy.queryCC)]

/-- The dispatcher in the words of the spec's design notes: look the function
name up in the table and run the handler found; the default is success with
no payload. -/
def ChaincodeStudy.InvokeByTable (t : ChaincodeStudy) (stub : ChaincodeStubInterface σ) :
    Go σ Response := do
  let (funcName, args) ← stub.GetFunctionAndParameters
  match dispatchTable.lookup funcName with
  | some handler => handler t stub args
  | none => return shim.Success none

/-! ## Test data -/

/-- A stub for an invocation of `function` with `args` on a host whose
queries succeed. -/
def healthyStub (function : GoString) (args : List GoString) : ChaincodeStubInterface Ledger :=
  ledgerStub function args (some emptyIterator, none) (some oneRecordHistory, none)

/-- A stub for an invocation on a host whose range query fails: it answers
with a nil iterator and an error. -/
def failingRangeStub (function : GoString) (args : List GoString) :
    ChaincodeStubInterface Ledger :=
  ledgerStub function args (none, some (goString "range query failed"))
    (some oneRecordHistory, none)

/-- A stub for an invocation on a host whose history query fails: it answers
with a nil iterator and an error. -/
def failingHistoryStub (function : GoString) (args : List GoString) :
    ChaincodeStubInterface Ledger :=
  ledgerStub function args (some emptyIterator, none)
    (none, some (goString "history query failed"))

/-- A ledger with one public entry and a pending event. -/
def sampleLedger : Ledger :=
  { state := [(goString "a", some (goString "100"))]
    privateData := []
    event := some (goString "Earlier", none) }

/-- A world in the middle of a transaction: two stub calls were made already. -/
def busyWorld : World Ledger :=
  { host := sampleLedger
    calls := [.GetState (goString "a"), .PutState (goString "b") (some (goString "500"))]
    stdout := []
    loggingLevel := .DEBUG }

/-- The arguments of the sample run of `ApiList`. -/
def sampleArgs : List GoString := [goString "ab", goString "", goString "c"]

/-- The world that `ApiList` leaves when run by `healthyStub (goString "init") sampleArgs`
from `World.start Ledger.empty`. -/
def sampleApiListWorld : World Ledger :=
  { host :=
      { state := []
        privateData := []
        event := some (goString "InitEvent", some (goString "abc")) }
    calls :=
      [.GetFunctionAndParameters,
       .PutState (goString "key") (some (goString "value")),
       .GetState (goString "key"),
       .DelState (goString "key"),
       .PutPrivateData (goString "collecionPrivate") (goString "key") (some (goString "value")),
       .GetPrivateData (goString "collecionPrivate") (goString "key"),
       .DelPrivateData (goString "collecionPrivate") (goString "key"),
       .GetStateByRange (goString "startKey") (goString "endKey"),
       .GetQueryResult (goString "\x7b\"selector\":\x7b\"age\":\"20\"\x7d\x7d"),
       .GetStateByRangeWithPagination (goString "startKey") (goString "endKey") 10 (goString ""),
       .GetQueryResultWithPagination (goString "sql") 10 (goString ""),
       .GetHistoryForKey (goString "key"),
       .SetEvent (goString "InitEvent") (some (goString "abc")),
       .InvokeChaincode (goString "合约名")
         [some (goString "invoke"), some (goString "transfer"), some (goString "a")]
         (goString "通道")]
    stdout :=
      [.Println [.string (goString "init"), .strings sampleArgs],
       .Println [.error none],
       .Println [.bytes (some (goString "value")), .error none],
       .Println [.metadata (some { Bookmark := goString "" })],
       .Println [.keyModification (some { Value := some [1], TxId := goString "tx0" }),
         .error none]]
    loggingLevel := .DEBUG }

/-! ## Lemmas -/

theorem goString_value : goString "value" = [118, 97, 108, 117, 101] := by decide

theorem goString_query_ne_invoke : goString "query" ≠ goString "invoke" := by decide

/-- What every run of `Invoke` does: one stub call, then a response chosen by
the function name. -/
theorem Invoke_run (t : ChaincodeStudy) (stub : ChaincodeStubInterface σ) (w : World σ) :
    t.Invoke stub w = .ok
      (if (stub.getFunctionAndParameters w.host).1.1 = goString "invoke" then shim.Success none
       else if (stub.getFunctionAndParameters w.host).1.1 = goString "query" then
         shim.Success (some (goString "value"))
       else shim.Success none,
       w.afterGetFunctionAndParameters stub) := by
  simp only [ChaincodeStudy.Invoke, ChaincodeStubInterface.GetFunctionAndParameters, hostCall,
    bind, StateT.bind, Except.bind]
  split_ifs <;> rfl

/-- What every run of `Init` does: one stub call, one line of output, success. -/
theorem Init_run (t : ChaincodeStudy) (stub : ChaincodeStubInterface σ) (w : World σ) :
    t.Init stub w = .ok (shim.Success none,
      { w.afterGetFunctionAndParameters stub with
        stdout := w.stdout ++ [.Printf (goString "funcname: %v ,args: %v")
                 [.string (stub.getFunctionAndParameters w.host).1.1,
                  .strings (stub.getFunctionAndParameters w.host).1.2]] }) := by
  rfl

theorem dispatchTable_lookup (f : GoString) :
    (dispatchTable : List (GoString × Handler σ)).lookup f =
      if f = goString "invoke" then some ChaincodeStudy.invokeCC
      else if f = goString "query" then some ChaincodeStudy.queryCC
      else none := by
  have e : ∀ g : GoString, (f == g) = decide (f = g) := fun g => by
    by_cases h : f = g
    · simp [h]
    · simp [h]
  simp only [dispatchTable, List.lookup, e]
  by_cases h₁ : f = goString "invoke"
  · rw [decide_eq_true h₁, if_pos h₁]
  · rw [decide_eq_false h₁, if_neg h₁]
    by_cases h₂ : f = goString "query"
    · rw [decide_eq_true h₂, if_pos h₂]
    · rw [decide_eq_false h₂, if_neg h₂]

theorem runInits_eq (t : ChaincodeStudy) (range : StateQueryIteratorInterface Ledger × GoError)
    (history : HistoryQueryIteratorInterface Ledger × GoError)
    (invocations : List (GoString × List GoString)) (l : Ledger) :
    runInits t range history invocations l = some l := by
  induction invocations with
  | nil => rfl
  | cons inv rest ih =>
    obtain ⟨function, args⟩ := inv
    simp only [runInits, Init_run]
    exact ih

theorem setEvents_append (xs ys : List StubCall) :
    setEvents (xs ++ ys) = setEvents xs ++ setEvents ys := by
  induction xs with
  | nil => rfl
  | cons c rest ih => cases c <;> simp [setEvents, ih]

theorem elems_append (s xs : ByteSlice) :
    ByteSlice.elems (ByteSlice.append s xs) = ByteSlice.elems s ++ ByteSlice.elems xs := by
  cases s with
  | none =>
    simp only [ByteSlice.append]
    cases h : ByteSlice.elems xs <;> simp [ByteSlice.elems]
  | some bs => simp [ByteSlice.append, ByteSlice.elems]

theorem elems_foldl (args : List GoString) (s : ByteSlice) :
    ByteSlice.elems (args.foldl (fun as a => ByteSlice.append as (ByteSlice.ofString a)) s) =
      ByteSlice.elems s ++ args.flatten := by
  induction args generalizing s with
  | nil => simp
  | cons a rest ih =>
    simp only [List.foldl_cons, ih, elems_append, List.flatten_cons, List.append_assoc]
    rfl

theorem elems_eventPayload (args : List GoString) :
    ByteSlice.elems (eventPayload args) = args.flatten := by
  rw [eventPayload, elems_foldl]
  rfl

/-! ### The stub calls of a run -/

theorem emits_pure {α : Type} (a : α) : Emits (Pure.pure a : Go σ α) [] := by
  intro w b w' h
  cases h
  simp

theorem emits_throw {α : Type} (e : GoPanic) (cs : List StubCall) :
    Emits (MonadExcept.throw e : Go σ α) cs := by
  intro w b w' h
  cases h

theorem emits_hostCall {α : Type} (c : StubCall) (f : σ → α × σ) :
    Emits (Chaincode.hostCall c f) [c] := by
  intro w b w' h
  cases h
  rfl

theorem emits_objectCall {α : Type} (f : σ → α × σ) : Emits (Chaincode.objectCall f) [] := by
  intro w b w' h
  cases h
  simp

theorem emits_Println (ops : List GoValue) : Emits (fmt.Println ops : Go σ Unit) [] := by
  intro w b w' h
  cases h
  simp

theorem emits_SetLoggingLevel (l : LoggingLevel) :
    Emits (shim.SetLoggingLevel l : Go σ Unit) [] := by
  intro w b w' h
  cases h
  simp

theorem emits_bind {α β : Type} {m : Go σ α} {f : α → Go σ β} {cs ds : List StubCall}
    (hm : Emits m cs) (hf : ∀ a, Emits (f a) ds) : Emits (StateT.bind m f) (cs ++ ds) := by
  intro w b w' h
  simp only [StateT.bind, Bind.bind, Except.bind] at h
  cases hr : m w with
  | error e => rw [hr] at h; cases h
  | ok v =>
    rw [hr] at h
    obtain ⟨a, w₁⟩ := v
    rw [hf a w₁ b w' h, hm w a w₁ hr, List.append_assoc]

theorem emits_bind_call {α β : Type} {c : StubCall} {g : σ → α × σ} {f : α → Go σ β}
    {ds : List StubCall} (hf : ∀ a, Emits (f a) ds) :
    Emits (StateT.bind (Chaincode.hostCall c g) f) (c :: ds) :=
  emits_bind (emits_hostCall c g) hf

theorem emits_bind_silent {α β : Type} {m : Go σ α} {f : α → Go σ β} {ds : List StubCall}
    (hm : Emits m []) (hf : ∀ a, Emits (f a) ds) : Emits (StateT.bind m f) ds :=
  emits_bind hm hf

theorem emits_ite {α : Type} {c : Prop} [Decidable c] {m n : Go σ α} {cs : List StubCall}
    (hm : Emits m cs) (hn : Emits n cs) : Emits (if c then m else n) cs := by
  split_ifs
  · exact hm
  · exact hn

theorem emits_StateHasNext (it : StateQueryIteratorInterface σ) :
    Emits (StateQueryIteratorInterface.HasNext it) [] := by
  cases it with
  | none => exact emits_throw _ _
  | some i => exact emits_objectCall _

theorem emits_StateNext (it : StateQueryIteratorInterface σ) :
    Emits (StateQueryIteratorInterface.Next it) [] := by
  cases it with
  | none => exact emits_throw _ _
  | some i => exact emits_objectCall _

theorem emits_HistoryHasNext (it : HistoryQueryIteratorInterface σ) :
    Emits (HistoryQueryIteratorInterface.HasNext it) [] := by
  cases it with
  | none => exact emits_throw _ _
  | some i => exact emits_objectCall _

theorem emits_HistoryNext (it : HistoryQueryIteratorInterface σ) :
    Emits (HistoryQueryIteratorInterface.Next it) [] := by
  cases it with
  | none => exact emits_throw _ _
  | some i => exact emits_objectCall _

/-- A computation that starts with a stub call: the calls of the rest may
depend on what that first call returned. -/
theorem emits_first_call {α β : Type} {c : StubCall} {g : σ → α × σ} {f : α → Go σ β}
    {d : α → List StubCall} (hf : ∀ a, Emits (f a) (d a)) (w : World σ) (b : β)
    (w' : World σ) (h : StateT.bind (Chaincode.hostCall c g) f w = .ok (b, w')) :
    w'.calls = w.calls ++ c :: d (g w.host).1 := by
  have h' := hf (g w.host).1 _ b w' h
  rw [h']
  simp

/-- The stub calls of a run of `ApiList` that ends normally: these fourteen,
in this order. -/
theorem ApiList_calls (t : ChaincodeStudy) (stub : ChaincodeStubInterface σ) (w w' : World σ)
    (h : t.ApiList stub w = .ok ((), w')) :
    w'.calls = w.calls ++
      [.GetFunctionAndParameters,
       .PutState (goString "key") (ByteSlice.ofString (goString "value")),
       .GetState (goString "key"),
       .DelState (goString "key"),
       .PutPrivateData (goString "collecionPrivate") (goString "key")
         (ByteSlice.ofString (goString "value")),
       .GetPrivateData (goString "collecionPrivate") (goString "key"),
       .DelPrivateData (goString "collecionPrivate") (goString "key"),
       .GetStateByRange (goString "startKey") (goString "endKey"),
       .GetQueryResult (goString "\x7b\"selector\":\x7b\"age\":\"20\"\x7d\x7d"),
       .GetStateByRangeWithPagination (goString "startKey") (goString "endKey") 10 (goString ""),
       .GetQueryResultWithPagination (goString "sql") 10 (goString ""),
       .GetHistoryForKey (goString "key"),
       .SetEvent (goString "InitEvent") (eventPayload (stub.getFunctionAndParameters w.host).1.2),
       .InvokeChaincode (goString "合约名")
         [ByteSlice.ofString (goString "invoke"), ByteSlice.ofString (goString "transfer"),
           ByteSlice.ofString (goString "a")]
         (goString "通道")] := by
  simp only [ChaincodeStudy.ApiList, bind,
    ChaincodeStubInterface.GetFunctionAndParameters, ChaincodeStubInterface.PutState,
    ChaincodeStubInterface.GetState, ChaincodeStubInterface.DelState,
    ChaincodeStubInterface.PutPrivateData, ChaincodeStubInterface.GetPrivateData,
    ChaincodeStubInterface.DelPrivateData, ChaincodeStubInterface.GetStateByRange,
    ChaincodeStubInterface.GetQueryResult, ChaincodeStubInterface.GetStateByRangeWithPagination,
    ChaincodeStubInterface.GetQueryResultWithPagination, ChaincodeStubInterface.GetHistoryForKey,
    ChaincodeStubInterface.SetEvent, ChaincodeStubInterface.InvokeChaincode] at h
  refine emits_first_call
    (d := fun a =>
      [.PutState (goString "key") (ByteSlice.ofString (goString "value")),
       .GetState (goString "key"),
       .DelState (goString "key"),
       .PutPrivateData (goString "collecionPrivate") (goString "key")
         (ByteSlice.ofString (goString "value")),
       .GetPrivateData (goString "collecionPrivate") (goString "key"),
       .DelPrivateData (goString "collecionPrivate") (goString "key"),
       .GetStateByRange (goString "startKey") (goString "endKey"),
       .GetQueryResult (goString "\x7b\"selector\":\x7b\"age\":\"20\"\x7d\x7d"),
       .GetStateByRangeWithPagination (goString "startKey") (goString "endKey") 10 (goString ""),
       .GetQueryResultWithPagination (goString "sql") 10 (goString ""),
       .GetHistoryForKey (goString "key"),
       .SetEvent (goString "InitEvent") (eventPayload a.2),
       .InvokeChaincode (goString "合约名")
         [ByteSlice.ofString (goString "invoke"), ByteSlice.ofString (goString "transfer"),
           ByteSlice.ofString (goString "a")]
         (goString "通道")]) ?_ w () w' h
  intro a
  refine emits_bind_silent (emits_Println _) fun _ => ?_
  refine emits_bind_call fun _ => ?_
  refine emits_bind_silent (emits_Println _) fun _ => ?_
  refine emits_bind_call fun _ => ?_
  refine emits_bind_silent (emits_Println _) fun _ => ?_
  refine emits_bind_call fun _ => ?_
  refine emits_bind_call fun _ => ?_
  refine emits_bind_call fun _ => ?_
  refine emits_bind_call fun _ => ?_
  refine emits_bind_call fun _ => ?_
  refine emits_bind_silent (emits_StateHasNext _) fun _ => ?_
  refine emits_ite
    (emits_bind_silent (emits_StateNext _) fun _ =>
      emits_bind_silent (emits_Println _) fun _ => ?_)
    (emits_bind_silent (emits_pure _) fun _ => ?_)
  all_goals
    refine emits_bind_call fun _ => ?_
    refine emits_bind_call fun _ => ?_
    refine emits_bind_silent (emits_Println _) fun _ => ?_
    refine emits_bind_call fun _ => ?_
    refine emits_bind_call fun _ => ?_
    refine emits_bind_silent (emits_HistoryHasNext _) fun _ => ?_
    refine emits_ite
      (emits_bind_silent (emits_HistoryNext _) fun _ =>
        emits_bind_silent (emits_Println _) fun _ => ?_)
      (emits_bind_silent (emits_pure _) fun _ => ?_)
    all_goals
      refine emits_bind_call fun _ => ?_
      refine emits_bind_call fun _ => ?_
      exact emits_SetLoggingLevel _

/-- The one `SetEvent` call of a run of `ApiList` that ends normally. -/
theorem ApiList_setEvents (t : ChaincodeStudy) (stub : ChaincodeStubInterface σ) (w w' : World σ)
    (h : t.ApiList stub w = .ok ((), w')) :
    setEvents w'.calls = setEvents w.calls ++
      [(goString "InitEvent", eventPayload (stub.getFunctionAndParameters w.host).1.2)] := by
  rw [ApiList_calls t stub w w' h, setEvents_append]
  rfl

/-! ### Runs that end normally -/

theorem returns_pure {α : Type} (a : α) : Returns (Pure.pure a : Go σ α) fun _ => True :=
  fun w => ⟨a, w, rfl, trivial⟩

theorem returns_hostCall {α : Type} (c : StubCall) (g : σ → α × σ) (P : α → Prop)
    (h : ∀ s, P (g s).1) : Returns (Chaincode.hostCall c g) P :=
  fun w => ⟨_, _, rfl, h w.host⟩

theorem returns_objectCall {α : Type} (g : σ → α × σ) :
    Returns (Chaincode.objectCall g) fun _ => True :=
  fun w => ⟨_, _, rfl, trivial⟩

theorem returns_Println (ops : List GoValue) :
    Returns (fmt.Println ops : Go σ Unit) fun _ => True :=
  fun w => ⟨_, _, rfl, trivial⟩

theorem returns_SetLoggingLevel (l : LoggingLevel) :
    Returns (shim.SetLoggingLevel l : Go σ Unit) fun _ => True :=
  fun w => ⟨_, _, rfl, trivial⟩

theorem returns_bind {α β : Type} {m : Go σ α} {f : α → Go σ β} {P : α → Prop}
    {Q : β → Prop} (hm : Returns m P) (hf : ∀ a, P a → Returns (f a) Q) :
    Returns (StateT.bind m f) Q := by
  intro w
  obtain ⟨a, w₁, e₁, pa⟩ := hm w
  obtain ⟨b, w₂, e₂, qb⟩ := hf a pa w₁
  refine ⟨b, w₂, ?_, qb⟩
  simp only [StateT.bind, Bind.bind, Except.bind, e₁, e₂]

theorem returns_bind_call {α β : Type} {c : StubCall} {g : σ → α × σ} {f : α → Go σ β}
    {Q : β → Prop} (hf : ∀ a, Returns (f a) Q) :
    Returns (StateT.bind (Chaincode.hostCall c g) f) Q :=
  returns_bind (returns_hostCall c g (fun _ => True) fun _ => trivial) fun a _ => hf a

theorem returns_bind_any {α β : Type} {m : Go σ α} {f : α → Go σ β}
    {Q : β → Prop} (hm : Returns m fun _ => True) (hf : ∀ a, Returns (f a) Q) :
    Returns (StateT.bind m f) Q :=
  returns_bind hm fun a _ => hf a

theorem returns_ite {α : Type} {c : Prop} [Decidable c] {m n : Go σ α} {P : α → Prop}
    (hm : Returns m P) (hn : Returns n P) : Returns (if c then m else n) P := by
  split_ifs
  · exact hm
  · exact hn

theorem returns_StateHasNext (it : StateQueryIteratorInterface σ) (h : it ≠ none) :
    Returns (StateQueryIteratorInterface.HasNext it) fun _ => True := by
  cases it with
  | none => exact absurd rfl h
  | some i => exact returns_objectCall _

theorem returns_StateNext (it : StateQueryIteratorInterface σ) (h : it ≠ none) :
    Returns (StateQueryIteratorInterface.Next it) fun _ => True := by
  cases it with
  | none => exact absurd rfl h
  | some i => exact returns_objectCall _

theorem returns_HistoryHasNext (it : HistoryQueryIteratorInterface σ) (h : it ≠ none) :
    Returns (HistoryQueryIteratorInterface.HasNext it) fun _ => True := by
  cases it with
  | none => exact absurd rfl h
  | some i => exact returns_objectCall _

theorem returns_HistoryNext (it : HistoryQueryIteratorInterface σ) (h : it ≠ none) :
    Returns (HistoryQueryIteratorInterface.Next it) fun _ => True := by
  cases it with
  | none => exact absurd rfl h
  | some i => exact returns_objectCall _

/-- On a host whose range and history queries always answer with an iterator,
`ApiList` ends normally. -/
theorem ApiList_returns (t : ChaincodeStudy) (stub : ChaincodeStubInterface σ)
    (hr : ∀ s, (stub.getStateByRange (goString "startKey") (goString "endKey") s).1.1 ≠ none)
    (hh : ∀ s, (stub.getHistoryForKey (goString "key") s).1.1 ≠ none) :
    Returns (t.ApiList stub) fun _ => True := by
  simp only [ChaincodeStudy.ApiList, bind,
    ChaincodeStubInterface.GetFunctionAndParameters, ChaincodeStubInterface.PutState,
    ChaincodeStubInterface.GetState, ChaincodeStubInterface.DelState,
    ChaincodeStubInterface.PutPrivateData, ChaincodeStubInterface.GetPrivateData,
    ChaincodeStubInterface.DelPrivateData, ChaincodeStubInterface.GetStateByRange,
    ChaincodeStubInterface.GetQueryResult, ChaincodeStubInterface.GetStateByRangeWithPagination,
    ChaincodeStubInterface.GetQueryResultWithPagination, ChaincodeStubInterface.GetHistoryForKey,
    ChaincodeStubInterface.SetEvent, ChaincodeStubInterface.InvokeChaincode]
  refine returns_bind_call fun _ => ?_
  refine returns_bind_any (returns_Println _) fun _ => ?_
  refine returns_bind_call fun _ => ?_
  refine returns_bind_any (returns_Println _) fun _ => ?_
  refine returns_bind_call fun _ => ?_
  refine returns_bind_any (returns_Println _) fun _ => ?_
  refine returns_bind_call fun _ => ?_
  refine returns_bind_call fun _ => ?_
  refine returns_bind_call fun _ => ?_
  refine returns_bind_call fun _ => ?_
  refine returns_bind (returns_hostCall _ _ (fun r => r.1 ≠ none) hr) fun r hr' => ?_
  refine returns_bind_any (returns_StateHasNext _ hr') fun _ => ?_
  refine returns_ite
    (returns_bind_any (returns_StateNext _ hr') fun _ =>
      returns_bind_any (returns_Println _) fun _ => ?_)
    (returns_bind_any (returns_pure _) fun _ => ?_)
  all_goals
    refine returns_bind_call fun _ => ?_
    refine returns_bind_call fun _ => ?_
    refine returns_bind_any (returns_Println _) fun _ => ?_
    refine returns_bind_call fun _ => ?_
    refine returns_bind (returns_hostCall _ _ (fun r => r.1 ≠ none) hh) fun r hh' => ?_
    refine returns_bind_any (returns_HistoryHasNext _ hh') fun _ => ?_
    refine returns_ite
      (returns_bind_any (returns_HistoryNext _ hh') fun _ =>
        returns_bind_any (returns_Println _) fun _ => ?_)
      (returns_bind_any (returns_pure _) fun _ => ?_)
    all_goals
      refine returns_bind_call fun _ => ?_
      refine returns_bind_call fun _ => ?_
      exact returns_SetLoggingLevel _

/-! ## The dispatcher -/

/-- C1: whenever the stub's `GetFunctionAndParameters` returns `("query", args)`,
whatever `args` is, `Invoke` returns a success response whose payload is
exactly the five bytes 118 97 108 117 101 of the ASCII string `value`. -/
theorem Invoke_query_returns_value (t : ChaincodeStudy) (stub : ChaincodeStubInterface σ)
    (w : World σ) (args : List GoString)
    (h : (stub.getFunctionAndParameters w.host).1 = (goString "query", args)) :
    t.Invoke stub w = .ok
        ({ statusOk := true, payload := some [118, 97, 108, 117, 101], message := [] },
          w.afterGetFunctionAndParameters stub) ∧
      goString "value" = [118, 97, 108, 117, 101] ∧
      ByteSlice.len (some [118, 97, 108, 117, 101]) = 5 := by
  refine ⟨?_, goString_value, rfl⟩
  rw [Invoke_run, h, if_neg goString_query_ne_invoke, if_pos rfl, goString_value]
  rfl

theorem Invoke_query_returns_value_witness :
    ((healthyStub (goString "query") []).getFunctionAndParameters
        (World.start Ledger.empty).host).1 = (goString "query", []) ∧
      (ChaincodeStudy.Invoke {} (healthyStub (goString "query") [])
          (World.start Ledger.empty) = .ok
        ({ statusOk := true, payload := some [118, 97, 108, 117, 101], message := [] },
          (World.start Ledger.empty).afterGetFunctionAndParameters
            (healthyStub (goString "query") [])) ∧
      goString "value" = [118, 97, 108, 117, 101] ∧
      ByteSlice.len (some [118, 97, 108, 117, 101]) = 5) :=
  ⟨rfl, Invoke_query_returns_value {} (healthyStub (goString "query") [])
    (World.start Ledger.empty) [] rfl⟩

/-- C2: whenever the stub's `GetFunctionAndParameters` returns `("invoke", args)`,
whatever `args` is, `Invoke` returns a success response with no payload. -/
theorem Invoke_invoke_returns_empty (t : ChaincodeStudy) (stub : ChaincodeStubInterface σ)
    (w : World σ) (args : List GoString)
    (h : (stub.getFunctionAndParameters w.host).1 = (goString "invoke", args)) :
    t.Invoke stub w = .ok
        ({ statusOk := true, payload := none, message := [] },
          w.afterGetFunctionAndParameters stub) := by
  rw [Invoke_run, h, if_pos rfl]
  rfl

theorem Invoke_invoke_returns_empty_witness :
    ((healthyStub (goString "invoke")
          [goString "a", goString "100", goString "b", goString "500"]).getFunctionAndParameters
        busyWorld.host).1 =
        (goString "invoke", [goString "a", goString "100", goString "b", goString "500"]) ∧
      ChaincodeStudy.Invoke {} (healthyStub (goString "invoke")
          [goString "a", goString "100", goString "b", goString "500"]) busyWorld = .ok
        ({ statusOk := true, payload := none, message := [] },
          busyWorld.afterGetFunctionAndParameters (healthyStub (goString "invoke")
            [goString "a", goString "100", goString "b", goString "500"])) :=
  ⟨rfl, Invoke_invoke_returns_empty {} (healthyStub (goString "invoke")
    [goString "a", goString "100", goString "b", goString "500"]) busyWorld
    [goString "a", goString "100", goString "b", goString "500"] rfl⟩

/-- C3: dispatch is by exact, case-sensitive match.  Whenever the function name
the stub returns is neither exactly `invoke` nor exactly `query`, `Invoke`
returns a success response with no payload, whatever the arguments; the names
`""`, `unknown`, `Query` and `transfer` are such names. -/
theorem Invoke_other_returns_empty (t : ChaincodeStudy) (stub : ChaincodeStubInterface σ)
    (w : World σ) (f : GoString) (args : List GoString)
    (h : (stub.getFunctionAndParameters w.host).1 = (f, args))
    (h₁ : f ≠ goString "invoke") (h₂ : f ≠ goString "query") :
    t.Invoke stub w = .ok
        ({ statusOk := true, payload := none, message := [] },
          w.afterGetFunctionAndParameters stub) ∧
      ∀ g ∈ [goString "", goString "unknown", goString "Query", goString "transfer"],
        g ≠ goString "invoke" ∧ g ≠ goString "query" := by
  refine ⟨?_, by decide⟩
  rw [Invoke_run, h, if_neg h₁, if_neg h₂]
  rfl

theorem Invoke_other_returns_empty_witness :
    ((healthyStub (goString "Query")
          [goString "a", goString "b", goString "10"]).getFunctionAndParameters
        busyWorld.host).1 = (goString "Query", [goString "a", goString "b", goString "10"]) ∧
      goString "Query" ≠ goString "invoke" ∧ goString "Query" ≠ goString "query" ∧
      ChaincodeStudy.Invoke {} (healthyStub (goString "Query")
          [goString "a", goString "b", goString "10"]) busyWorld = .ok
        ({ statusOk := true, payload := none, message := [] },
          busyWorld.afterGetFunctionAndParameters (healthyStub (goString "Query")
            [goString "a", goString "b", goString "10"])) :=
  ⟨rfl, by decide, by decide,
    (Invoke_other_returns_empty {} (healthyStub (goString "Query")
      [goString "a", goString "b", goString "10"]) busyWorld (goString "Query")
      [goString "a", goString "b", goString "10"] rfl (by decide) (by decide)).1⟩

/-- C4: for every stub, so for every function name and argument list it
returns, `Init` returns a success response with no payload; neither the name
nor the arguments are examined, they are only printed. -/
theorem Init_returns_success (t : ChaincodeStudy) (stub : ChaincodeStubInterface σ)
    (w : World σ) :
    t.Init stub w = .ok
      ({ statusOk := true, payload := none, message := [] },
        { w.afterGetFunctionAndParameters stub with
          stdout := w.stdout ++ [.Printf (goString "funcname: %v ,args: %v")
            [.string (stub.getFunctionAndParameters w.host).1.1,
             .strings (stub.getFunctionAndParameters w.host).1.2]] }) :=
  Init_run t stub w

/-- C5: no callback produces a failure.  For every stub, `Init` and `Invoke`
both return, and the response carries the success status, an empty message,
and is no response that `shim.Error` builds. -/
theorem callbacks_never_fail (t : ChaincodeStudy) (stub : ChaincodeStubInterface σ)
    (w : World σ) :
    (∃ r w', t.Init stub w = .ok (r, w') ∧ r.statusOk = true ∧ r.message = [] ∧
      ∀ msg, r ≠ shim.Error msg) ∧
    (∃ r w', t.Invoke stub w = .ok (r, w') ∧ r.statusOk = true ∧ r.message = [] ∧
      ∀ msg, r ≠ shim.Error msg) := by
  constructor
  · refine ⟨_, _, Init_run t stub w, rfl, rfl, ?_⟩
    intro msg h
    cases h
  · refine ⟨_, _, Invoke_run t stub w, ?_, ?_, ?_⟩
    · split_ifs <;> rfl
    · split_ifs <;> rfl
    · intro msg h
      split_ifs at h <;> cases h

/-- C6: `Init` and `Invoke` issue one stub call, `GetFunctionAndParameters`, and
the host state they leave is the one that call left; the handlers `invokeCC`
and `queryCC` issue no call and leave the world as it was.  On a host with an
explicit ledger (public state, private collections, pending event) the ledger
after `Init` or `Invoke` is the ledger before, and any sequence of `Init`
calls, each with its own function name and arguments, leaves the ledger it
started from. -/
theorem callbacks_leave_ledger_unchanged (t : ChaincodeStudy)
    (stub : ChaincodeStubInterface σ) (w : World σ) (args : List GoString) :
    (∃ r w', t.Init stub w = .ok (r, w') ∧
      w'.calls = w.calls ++ [.GetFunctionAndParameters] ∧
      w'.host = (stub.getFunctionAndParameters w.host).2) ∧
    (∃ r w', t.Invoke stub w = .ok (r, w') ∧
      w'.calls = w.calls ++ [.GetFunctionAndParameters] ∧
      w'.host = (stub.getFunctionAndParameters w.host).2) ∧
    (∃ r, t.invokeCC stub args w = .ok (r, w)) ∧
    (∃ r, t.queryCC stub args w = .ok (r, w)) ∧
    (∀ (function : GoString) (args : List GoString)
        (range : StateQueryIteratorInterface Ledger × GoError)
        (history : HistoryQueryIteratorInterface Ledger × GoError) (v : World Ledger),
      (∃ r v', t.Init (ledgerStub function args range history) v = .ok (r, v') ∧
        v'.host = v.host) ∧
      (∃ r v', t.Invoke (ledgerStub function args range history) v = .ok (r, v') ∧
        v'.host = v.host)) ∧
    (∀ (range : StateQueryIteratorInterface Ledger × GoError)
        (history : HistoryQueryIteratorInterface Ledger × GoError)
        (invocations : List (GoString × List GoString)) (l : Ledger),
      runInits t range history invocations l = some l) := by
  refine ⟨⟨_, _, Init_run t stub w, rfl, rfl⟩, ⟨_, _, Invoke_run t stub w, rfl, rfl⟩,
    ⟨_, rfl⟩, ⟨_, rfl⟩, ?_, ?_⟩
  · intro function args range history v
    exact ⟨⟨_, _, Init_run t _ v, rfl⟩, ⟨_, _, Invoke_run t _ v, rfl⟩⟩
  · intro range history invocations l
    exact runInits_eq t range history invocations l

/-- C7: the response of `Invoke` is a function of the function name alone.  Two
invocations whose stubs return the same function name, over any two hosts, in
any two worlds and with any arguments, both return, with equal responses. -/
theorem Invoke_response_by_name_only {σ₁ σ₂ : Type} (t₁ t₂ : ChaincodeStudy)
    (stub₁ : ChaincodeStubInterface σ₁) (stub₂ : ChaincodeStubInterface σ₂)
    (w₁ : World σ₁) (w₂ : World σ₂)
    (h : (stub₁.getFunctionAndParameters w₁.host).1.1 =
      (stub₂.getFunctionAndParameters w₂.host).1.1) :
    ∃ r, response? (t₁.Invoke stub₁ w₁) = some r ∧ response? (t₂.Invoke stub₂ w₂) = some r := by
  rw [Invoke_run, Invoke_run, h]
  exact ⟨_, rfl, rfl⟩

theorem Invoke_response_by_name_only_witness :
    ((healthyStub (goString "query") []).getFunctionAndParameters
        (World.start Ledger.empty).host).1.1 =
      ((failingRangeStub (goString "query")
        [goString "a", goString "b"]).getFunctionAndParameters busyWorld.host).1.1 ∧
    ∃ r, response? (ChaincodeStudy.Invoke {} (healthyStub (goString "query") [])
          (World.start Ledger.empty)) = some r ∧
      response? (ChaincodeStudy.Invoke {} (failingRangeStub (goString "query")
          [goString "a", goString "b"]) busyWorld) = some r :=
  ⟨rfl, Invoke_response_by_name_only {} {} (healthyStub (goString "query") [])
    (failingRangeStub (goString "query") [goString "a", goString "b"])
    (World.start Ledger.empty) busyWorld rfl⟩

/-- C10: the chain of string comparisons in `Invoke` and the lookup in the
two-entry dispatch table with its default do the same: for every stub and
world, so for every function name and argument list, both end in the same
response and the same world. -/
theorem Invoke_refines_dispatch_table (t : ChaincodeStudy) (stub : ChaincodeStubInterface σ)
    (w : World σ) : t.Invoke stub w = t.InvokeByTable stub w := by
  simp only [ChaincodeStudy.Invoke, ChaincodeStudy.InvokeByTable,
    ChaincodeStubInterface.GetFunctionAndParameters, hostCall,
    bind, StateT.bind, Except.bind, dispatchTable_lookup]
  split_ifs <;> rfl

/-! ## The API catalogue -/

/-- C8: a run of `ApiList` that ends normally has made exactly one `SetEvent`
call; its name is `InitEvent` and its payload holds the bytes of the arguments
that `GetFunctionAndParameters` returned, one after the other in order and
with nothing between them.  The payload is as long as the arguments' lengths
add up to, and for an empty argument list it is the nil slice.  On a host
whose range and history queries always answer with an iterator the run does
end normally. -/
theorem ApiList_event_payload (t : ChaincodeStudy) (stub : ChaincodeStubInterface σ)
    (w : World σ) :
    (∀ w', world? (t.ApiList stub w) = some w' →
      ∃ payload : ByteSlice,
        setEvents w'.calls = setEvents w.calls ++ [(goString "InitEvent", payload)] ∧
        ByteSlice.elems payload = (stub.getFunctionAndParameters w.host).1.2.flatten ∧
        ByteSlice.len payload =
          ((stub.getFunctionAndParameters w.host).1.2.map List.length).sum ∧
        ((stub.getFunctionAndParameters w.host).1.2 = [] → payload = none)) ∧
    ((∀ s, (stub.getStateByRange (goString "startKey") (goString "endKey") s).1.1 ≠ none) →
      (∀ s, (stub.getHistoryForKey (goString "key") s).1.1 ≠ none) →
      ∃ w', world? (t.ApiList stub w) = some w') := by
  constructor
  · intro w' h
    have h' : t.ApiList stub w = .ok ((), w') := by
      cases hr : t.ApiList stub w with
      | error e => rw [hr] at h; cases h
      | ok v =>
        rw [hr] at h
        obtain ⟨u, w₁⟩ := v
        cases h
        rfl
    refine ⟨eventPayload (stub.getFunctionAndParameters w.host).1.2,
      ApiList_setEvents t stub w w' h', elems_eventPayload _, ?_, ?_⟩
    · rw [ByteSlice.len, elems_eventPayload, List.length_flatten]
    · intro e
      rw [e]
      rfl
  · intro hr hh
    obtain ⟨u, w', e, _⟩ := ApiList_returns t stub hr hh w
    exact ⟨w', by rw [e]; rfl⟩

theorem ApiList_event_payload_witness :
    world? (ChaincodeStudy.ApiList {} (healthyStub (goString "init") sampleArgs)
        (World.start Ledger.empty)) = some sampleApiListWorld ∧
    sampleArgs.flatten = goString "abc" ∧
    ∃ payload : ByteSlice,
      setEvents sampleApiListWorld.calls =
        setEvents (World.start Ledger.empty).calls ++ [(goString "InitEvent", payload)] ∧
      ByteSlice.elems payload =
        ((healthyStub (goString "init") sampleArgs).getFunctionAndParameters
          (World.start Ledger.empty).host).1.2.flatten ∧
      ByteSlice.len payload =
        (((healthyStub (goString "init") sampleArgs).getFunctionAndParameters
          (World.start Ledger.empty).host).1.2.map List.length).sum ∧
      (((healthyStub (goString "init") sampleArgs).getFunctionAndParameters
          (World.start Ledger.empty).host).1.2 = [] → payload = none) :=
  ⟨rfl, by decide, (ApiList_event_payload {} (healthyStub (goString "init") sampleArgs)
    (World.start Ledger.empty)).1 sampleApiListWorld rfl⟩

/-- C9: `ApiList` does not run to completion for every stub.  On a host whose
range query fails, `GetStateByRange` answers with a nil iterator and an error;
`ApiList` drops the error, calls `HasNext` on the nil iterator and panics.  The
same happens at `GetHistoryForKey` on a host whose history query fails. -/
theorem ApiList_panics_on_nil_iterator :
    ((failingRangeStub (goString "init") [goString "a"]).getStateByRange
        (goString "startKey") (goString "endKey") Ledger.empty =
      ((none, some (goString "range query failed")), Ledger.empty) ∧
    ChaincodeStudy.ApiList {} (failingRangeStub (goString "init") [goString "a"])
      (World.start Ledger.empty) = .error .nilPointerDereference) ∧
    ((failingHistoryStub (goString "init") [goString "a"]).getHistoryForKey
        (goString "key") Ledger.empty =
      ((none, some (goString "history query failed")), Ledger.empty) ∧
    ChaincodeStudy.ApiList {} (failingHistoryStub (goString "init") [goString "a"])
      (World.start Ledger.empty) = .error .nilPointerDereference) :=
  ⟨⟨rfl, rfl⟩, ⟨rfl, rfl⟩⟩

end Chaincode
